import Mathlib

/-!
Verification development for the ink BrushPaint core: the data model
(TextureKeyframe, TextureLayer, BrushPaint, Angle, Vec), its equality and
hashing, the canonical stringification, the `ValidateBrushPaint` finiteness
validator, and the JNI status-translation helper `CheckOkOrThrow`.

The production C++ sources (`ink/brush/brush_paint.{h,cc}`,
`ink/geometry/angle.h`, `ink/geometry/vec.h`, `ink/jni/internal/
jni_throw_util.cc`) are modelled here from the specification document and
from the expectations recorded in `ink/brush/brush_paint_test.cc`; each
modelled definition carries a doc comment saying so.
-/

set_option autoImplicit false
set_option maxRecDepth 10000

namespace Ink

/-- Modelled from the spec: the floating-point scalar used by the missing
`brush_paint.h` fields. The spec only distinguishes finite values (compared
and hashed exactly, bit-for-bit) from the non-finite values NaN and the two
infinities, so a finite value is carried as an exact rational and the three
non-finite values are explicit constructors. -/
inductive FP where
  | finite (q : ℚ)
  | posInf
  | negInf
  | nan
  deriving DecidableEq, Repr

/-- Modelled from the spec: finiteness test (`std::isfinite`); rejects NaN
and both signs of infinity. -/
def FP.isFinite : FP → Bool
  | .finite _ => true
  | _ => false

/-- Exact floating-point equality on the stored value (bit-for-bit per the
spec, so identical non-finite values compare equal). -/
def FP.beq : FP → FP → Bool
  | .finite a, .finite b => decide (a = b)
  | .posInf, .posInf => true
  | .negInf, .negInf => true
  | .nan, .nan => true
  | _, _ => false

/-- Fractional decimal digits of `rem / den`, stopping at the exact
terminating representation (fuel bounds the recursion). -/
def fracDigits : Nat → Nat → Nat → String
  | 0, _, _ => ""
  | fuel + 1, rem, den =>
    if rem = 0 then ""
    else
      let r10 := rem * 10
      Nat.repr (r10 / den) ++ fracDigits fuel (r10 % den) den

/-- Modelled from the spec: minimal decimal rendering of a finite value
(integers print without a fractional part, e.g. `1` not `1.0`). -/
def ratToString (q : ℚ) : String :=
  let sign := if q.num < 0 then "-" else ""
  let n := q.num.natAbs
  let d := q.den
  let ip := n / d
  let rem := n % d
  if rem = 0 then sign ++ Nat.repr ip
  else sign ++ Nat.repr ip ++ "." ++ fracDigits 40 rem d

/-- Modelled from the spec: numeric stringification; non-finite values never
occur in the snapshot strings the tests pin down. -/
def FP.toStr : FP → String
  | .finite q => ratToString q
  | .posInf => "inf"
  | .negInf => "-inf"
  | .nan => "nan"

/-- Modelled from the spec: `ink::Vec`, an ordered pair of floats with exact
component-wise equality and hashing. -/
structure Vec where
  x : FP
  y : FP
  deriving DecidableEq, Repr

def Vec.isFinite (v : Vec) : Bool := v.x.isFinite && v.y.isFinite

def Vec.beq (a b : Vec) : Bool := FP.beq a.x b.x && FP.beq a.y b.y

/-- Modelled from the spec: `Vec` renders as `<x, y>`. -/
def Vec.toStr (v : Vec) : String :=
  "<" ++ v.x.toStr ++ ", " ++ v.y.toStr ++ ">"

/-- Modelled from the spec: `ink::Angle` wraps one stored radian scalar.
The stored value is represented here by its multiple of π (the scale the
π-relative text form exposes); scaling by the constant π is a bijection, so
exact equality, finiteness and hashing of the radian value coincide with
exact equality, finiteness and hashing of this representation. -/
structure Angle where
  radOverPi : FP
  deriving DecidableEq, Repr

/-- `Angle()` — stores zero radians. -/
def Angle.zero : Angle := ⟨FP.finite 0⟩

/-- `Angle::Radians` applied to a non-finite scalar stores that scalar
unchanged (construction does not validate). -/
def Angle.ofFP (v : FP) : Angle := ⟨v⟩

def Angle.isFinite (a : Angle) : Bool := a.radOverPi.isFinite

/-- Exact comparison of the stored raw value, no normalization. -/
def Angle.beq (a b : Angle) : Bool := FP.beq a.radOverPi b.radOverPi

/-- Modelled from the spec: an angle renders as a decimal multiple of π,
e.g. `0.5π`, and zero renders `0π`. -/
def Angle.toStr (a : Angle) : String := a.radOverPi.toStr ++ "π"

/-- Modelled from the spec: `BrushPaint::TextureMapping` ordinals in
declaration order `kWinding, kTiling` (the test feeds the formatter raw
out-of-range ordinals, so the model keeps the underlying integer). -/
abbrev TextureMapping := Nat

def TextureMapping.kWinding : TextureMapping := 0
def TextureMapping.kTiling : TextureMapping := 1

/-- Modelled from the spec: `BrushPaint::TextureOrigin` ordinals in
declaration order. -/
abbrev TextureOrigin := Nat

def TextureOrigin.kStrokeSpaceOrigin : TextureOrigin := 0
def TextureOrigin.kFirstStrokeInput : TextureOrigin := 1
def TextureOrigin.kLastStrokeInput : TextureOrigin := 2

/-- Modelled from the spec: `BrushPaint::TextureSizeUnit` ordinals in
declaration order. -/
abbrev TextureSizeUnit := Nat

def TextureSizeUnit.kBrushSize : TextureSizeUnit := 0
def TextureSizeUnit.kStrokeSize : TextureSizeUnit := 1
def TextureSizeUnit.kStrokeCoordinates : TextureSizeUnit := 2

/-- Modelled from the spec: `BrushPaint::BlendMode` ordinals in declaration
order. -/
abbrev BlendMode := Nat

def BlendMode.kModulate : BlendMode := 0
def BlendMode.kDstIn : BlendMode := 1
def BlendMode.kDstOut : BlendMode := 2
def BlendMode.kSrcAtop : BlendMode := 3
def BlendMode.kSrcIn : BlendMode := 4
def BlendMode.kSrcOver : BlendMode := 5
def BlendMode.kSrc : BlendMode := 6
def BlendMode.kXor : BlendMode := 7

/-- Modelled from the spec: enum token table with the defensive fallback
`TextureMapping(<ordinal>)` for unknown ordinals. -/
def stringifyTextureMapping : TextureMapping → String
  | 0 => "kWinding"
  | 1 => "kTiling"
  | n => "TextureMapping(" ++ Nat.repr n ++ ")"

/-- Modelled from the spec: enum token table with the defensive fallback
`TextureOrigin(<ordinal>)` for unknown ordinals. -/
def stringifyTextureOrigin : TextureOrigin → String
  | 0 => "kStrokeSpaceOrigin"
  | 1 => "kFirstStrokeInput"
  | 2 => "kLastStrokeInput"
  | n => "TextureOrigin(" ++ Nat.repr n ++ ")"

/-- Modelled from the spec: enum token table with the defensive fallback
`TextureSizeUnit(<ordinal>)` for unknown ordinals. -/
def stringifyTextureSizeUnit : TextureSizeUnit → String
  | 0 => "kBrushSize"
  | 1 => "kStrokeSize"
  | 2 => "kStrokeCoordinates"
  | n => "TextureSizeUnit(" ++ Nat.repr n ++ ")"

/-- Modelled from the spec: enum token table with the defensive fallback
`BlendMode(<ordinal>)` for unknown ordinals. -/
def stringifyBlendMode : BlendMode → String
  | 0 => "kModulate"
  | 1 => "kDstIn"
  | 2 => "kDstOut"
  | 3 => "kSrcAtop"
  | 4 => "kSrcIn"
  | 5 => "kSrcOver"
  | 6 => "kSrc"
  | 7 => "kXor"
  | n => "BlendMode(" ++ Nat.repr n ++ ")"

/-- Modelled from the spec: `BrushPaint::TextureKeyframe` — required
`progress` plus four optional overrides; absence is an explicit state,
distinct from every present value. Field defaults mirror the C++ member
initializers (`progress = 0`, the rest absent). -/
structure TextureKeyframe where
  progress : FP := FP.finite 0
  size : Option Vec := none
  offset : Option Vec := none
  rotation : Option Angle := none
  opacity : Option FP := none
  deriving DecidableEq, Repr

/-- Modelled from the spec: the opaque texture identifier (`ink::Uri`) is an
abstract comparable/hashable handle; the model carries its canonical printed
form, with the empty string as the unset identifier. -/
abbrev Uri := String

/-- Modelled from the spec: `BrushPaint::TextureLayer` — twelve value fields
plus the keyframe sequence, with the C++ default member initializers. -/
structure TextureLayer where
  color_texture_uri : Uri := ""
  mapping : TextureMapping := TextureMapping.kTiling
  origin : TextureOrigin := TextureOrigin.kStrokeSpaceOrigin
  size_unit : TextureSizeUnit := TextureSizeUnit.kStrokeCoordinates
  size : Vec := ⟨FP.finite 1, FP.finite 1⟩
  offset : Vec := ⟨FP.finite 0, FP.finite 0⟩
  rotation : Angle := Angle.zero
  size_jitter : Vec := ⟨FP.finite 0, FP.finite 0⟩
  offset_jitter : Vec := ⟨FP.finite 0, FP.finite 0⟩
  rotation_jitter : Angle := Angle.zero
  opacity : FP := FP.finite 1
  keyframes : List TextureKeyframe := []
  blend_mode : BlendMode := BlendMode.kModulate
  deriving DecidableEq, Repr

/-- Modelled from the spec: `ink::BrushPaint` — one ordered sequence of
texture layers, default empty (untextured solid ink). -/
structure BrushPaint where
  texture_layers : List TextureLayer := []
  deriving DecidableEq, Repr

/-- Modelled from the spec: keyframe stringification — `progress` always,
then each optional field only when present, in the fixed order
progress, size, offset, rotation, opacity. -/
def stringifyTextureKeyframe (kf : TextureKeyframe) : String :=
  "TextureKeyframe\x7bprogress=" ++ kf.progress.toStr
    ++ (match kf.size with
        | none => ""
        | some v => ", size=" ++ v.toStr)
    ++ (match kf.offset with
        | none => ""
        | some v => ", offset=" ++ v.toStr)
    ++ (match kf.rotation with
        | none => ""
        | some a => ", rotation=" ++ a.toStr)
    ++ (match kf.opacity with
        | none => ""
        | some o => ", opacity=" ++ o.toStr)
    ++ "\x7d"

/-- Modelled from the spec: layer stringification — every field is always
emitted, in the fixed documented order. -/
def stringifyTextureLayer (tl : TextureLayer) : String :=
  "TextureLayer\x7bcolor_texture_uri=" ++ tl.color_texture_uri
    ++ ", mapping=" ++ stringifyTextureMapping tl.mapping
    ++ ", origin=" ++ stringifyTextureOrigin tl.origin
    ++ ", size_unit=" ++ stringifyTextureSizeUnit tl.size_unit
    ++ ", size=" ++ tl.size.toStr
    ++ ", offset=" ++ tl.offset.toStr
    ++ ", rotation=" ++ tl.rotation.toStr
    ++ ", size_jitter=" ++ tl.size_jitter.toStr
    ++ ", offset_jitter=" ++ tl.offset_jitter.toStr
    ++ ", rotation_jitter=" ++ tl.rotation_jitter.toStr
    ++ ", opacity=" ++ tl.opacity.toStr
    ++ ", keyframes=\x7b"
    ++ String.intercalate ", " (tl.keyframes.map stringifyTextureKeyframe)
    ++ "\x7d, blend_mode=" ++ stringifyBlendMode tl.blend_mode
    ++ "\x7d"

/-- Modelled from the spec: paint stringification. -/
def stringifyBrushPaint (p : BrushPaint) : String :=
  "BrushPaint\x7btexture_layers=\x7b"
    ++ String.intercalate ", " (p.texture_layers.map stringifyTextureLayer)
    ++ "\x7d\x7d"

/-- Generic equality of optional fields: absent matches only absent. -/
def optBeq {α : Type} (f : α → α → Bool) : Option α → Option α → Bool
  | none, none => true
  | some a, some b => f a b
  | _, _ => false

/-- Generic exact sequence equality: same length, same elements, same order. -/
def listBeq {α : Type} (f : α → α → Bool) : List α → List α → Bool
  | [], [] => true
  | a :: as, b :: bs => f a b && listBeq f as bs
  | _, _ => false

/-- Modelled from the spec: `TextureKeyframe::operator==` — all five fields
(including the absent/present state of the four optional ones) must match. -/
def TextureKeyframe.beq (a b : TextureKeyframe) : Bool :=
  FP.beq a.progress b.progress
    && optBeq Vec.beq a.size b.size
    && optBeq Vec.beq a.offset b.offset
    && optBeq Angle.beq a.rotation b.rotation
    && optBeq FP.beq a.opacity b.opacity

/-- Modelled from the spec: `TextureLayer::operator==` — field-wise over the
twelve fields plus exact sequence equality of `keyframes`. -/
def TextureLayer.beq (a b : TextureLayer) : Bool :=
  decide (a.color_texture_uri = b.color_texture_uri)
    && decide (a.mapping = b.mapping)
    && decide (a.origin = b.origin)
    && decide (a.size_unit = b.size_unit)
    && Vec.beq a.size b.size
    && Vec.beq a.offset b.offset
    && Angle.beq a.rotation b.rotation
    && Vec.beq a.size_jitter b.size_jitter
    && Vec.beq a.offset_jitter b.offset_jitter
    && Angle.beq a.rotation_jitter b.rotation_jitter
    && FP.beq a.opacity b.opacity
    && listBeq TextureKeyframe.beq a.keyframes b.keyframes
    && decide (a.blend_mode = b.blend_mode)

/-- Modelled from the spec: `BrushPaint::operator==` — exact, order-sensitive
sequence equality of the layers. -/
def BrushPaint.beq (a b : BrushPaint) : Bool :=
  listBeq TextureLayer.beq a.texture_layers b.texture_layers

/-- Order-dependent hash combiner (absl-style mixing, modelled). -/
def mix (a b : Nat) : Nat := a * 1000003 + b

def intEncode : Int → Nat
  | .ofNat n => 2 * n
  | .negSucc n => 2 * n + 1

/-- Modelled from the spec: hash of one scalar — finite values hash their
exact value, the three non-finite values get distinct tags. -/
def FP.hashv : FP → Nat
  | .finite q => mix 7 (mix (intEncode q.num) q.den)
  | .posInf => 1
  | .negInf => 2
  | .nan => 3

def Vec.hashv (v : Vec) : Nat := mix v.x.hashv v.y.hashv

def Angle.hashv (a : Angle) : Nat := mix 11 a.radOverPi.hashv

/-- Hash of an optional field: combine the present/absent discriminant with
the value's hash when present. -/
def optHash {α : Type} (h : α → Nat) : Option α → Nat
  | none => 0
  | some a => mix 1 (h a)

def listHash {α : Type} (h : α → Nat) (l : List α) : Nat :=
  l.foldl (fun acc a => mix acc (h a)) 5

def strHash (s : String) : Nat :=
  s.toList.foldl (fun acc c => mix acc c.toNat) 13

/-- Modelled from the spec: `AbslHashValue` for TextureKeyframe — combines
`progress` with each optional field's discriminant and value. -/
def TextureKeyframe.hashv (kf : TextureKeyframe) : Nat :=
  mix (mix (mix (mix kf.progress.hashv (optHash Vec.hashv kf.size))
    (optHash Vec.hashv kf.offset)) (optHash Angle.hashv kf.rotation))
    (optHash FP.hashv kf.opacity)

/-- Modelled from the spec: `AbslHashValue` for TextureLayer — combines all
thirteen fields; the opaque identifier participates via its own hash. -/
def TextureLayer.hashv (tl : TextureLayer) : Nat :=
  mix (mix (mix (mix (mix (mix (mix (mix (mix (mix (mix (mix
    (strHash tl.color_texture_uri) tl.mapping) tl.origin) tl.size_unit)
    tl.size.hashv) tl.offset.hashv) tl.rotation.hashv) tl.size_jitter.hashv)
    tl.offset_jitter.hashv) tl.rotation_jitter.hashv) tl.opacity.hashv)
    (listHash TextureKeyframe.hashv tl.keyframes)) tl.blend_mode

/-- Modelled from the spec: `AbslHashValue` for BrushPaint. -/
def BrushPaint.hashv (p : BrushPaint) : Nat :=
  listHash TextureLayer.hashv p.texture_layers

/-- Modelled from the spec: the slice of `absl::Status` this core uses — a
numeric canonical code plus a message; code 0 is OK and code 3 is
`kInvalidArgument`. -/
structure Status where
  code : Nat
  message : String
  deriving DecidableEq, Repr

def okStatus : Status := ⟨0, ""⟩

/-- `absl::InvalidArgumentError` (canonical code 3). -/
def invalidArgumentStatus (msg : String) : Status := ⟨3, msg⟩

def Status.isOk (s : Status) : Bool := decide (s.code = 0)

/-- Every numeric field of a keyframe is finite (an absent optional field
has no numeric value and passes). -/
def TextureKeyframe.allFinite (kf : TextureKeyframe) : Bool :=
  kf.progress.isFinite
    && kf.size.all Vec.isFinite
    && kf.offset.all Vec.isFinite
    && kf.rotation.all Angle.isFinite
    && kf.opacity.all FP.isFinite

/-- Every numeric field reachable from a layer (its own scalars and every
keyframe's) is finite. -/
def TextureLayer.allFinite (tl : TextureLayer) : Bool :=
  tl.rotation.isFinite
    && tl.rotation_jitter.isFinite
    && tl.size.isFinite
    && tl.offset.isFinite
    && tl.size_jitter.isFinite
    && tl.offset_jitter.isFinite
    && tl.opacity.isFinite
    && tl.keyframes.all TextureKeyframe.allFinite

/-- Every numeric field reachable from a paint is finite. -/
def BrushPaint.allFinite (p : BrushPaint) : Bool :=
  p.texture_layers.all TextureLayer.allFinite

/-- Names of the non-finite numeric fields of a keyframe, in scan order
progress, size, offset, rotation, opacity. -/
def TextureKeyframe.badFields (kf : TextureKeyframe) : List String :=
  (if kf.progress.isFinite then [] else ["progress"])
    ++ (if kf.size.all Vec.isFinite then [] else ["size"])
    ++ (if kf.offset.all Vec.isFinite then [] else ["offset"])
    ++ (if kf.rotation.all Angle.isFinite then [] else ["rotation"])
    ++ (if kf.opacity.all FP.isFinite then [] else ["opacity"])

/-- Names of the non-finite numeric fields of a layer, in scan order:
rotation, rotation_jitter, size, offset, size_jitter, offset_jitter,
opacity, then each keyframe's fields in stored keyframe order. -/
def TextureLayer.badFields (tl : TextureLayer) : List String :=
  (if tl.rotation.isFinite then [] else ["rotation"])
    ++ (if tl.rotation_jitter.isFinite then [] else ["rotation_jitter"])
    ++ (if tl.size.isFinite then [] else ["size"])
    ++ (if tl.offset.isFinite then [] else ["offset"])
    ++ (if tl.size_jitter.isFinite then [] else ["size_jitter"])
    ++ (if tl.offset_jitter.isFinite then [] else ["offset_jitter"])
    ++ (if tl.opacity.isFinite then [] else ["opacity"])
    ++ (tl.keyframes.map TextureKeyframe.badFields).flatten

/-- Names of the non-finite numeric fields of a paint, scanning layers in
stored order. -/
def BrushPaint.badFields (p : BrushPaint) : List String :=
  (p.texture_layers.map TextureLayer.badFields).flatten

/-- Modelled from the spec: per-keyframe finiteness checks of the missing
`ValidateBrushPaint`, returning the first offending field's name. -/
def validateKeyframe (kf : TextureKeyframe) : Option String :=
  if !kf.progress.isFinite then some "progress"
  else if !(kf.size.all Vec.isFinite) then some "size"
  else if !(kf.offset.all Vec.isFinite) then some "offset"
  else if !(kf.rotation.all Angle.isFinite) then some "rotation"
  else if !(kf.opacity.all FP.isFinite) then some "opacity"
  else none

/-- First keyframe error in stored order. -/
def firstKeyframeErr : List TextureKeyframe → Option String
  | [] => none
  | kf :: rest =>
    match validateKeyframe kf with
    | some e => some e
    | none => firstKeyframeErr rest

/-- Modelled from the spec: per-layer finiteness checks of the missing
`ValidateBrushPaint` — every floating-point-bearing field of the layer and
of each of its keyframes is checked independently, short-circuiting on the
first violation. -/
def validateLayer (tl : TextureLayer) : Option String :=
  if !tl.rotation.isFinite then some "rotation"
  else if !tl.rotation_jitter.isFinite then some "rotation_jitter"
  else if !tl.size.isFinite then some "size"
  else if !tl.offset.isFinite then some "offset"
  else if !tl.size_jitter.isFinite then some "size_jitter"
  else if !tl.offset_jitter.isFinite then some "offset_jitter"
  else if !tl.opacity.isFinite then some "opacity"
  else firstKeyframeErr tl.keyframes

/-- First layer error in stored order. -/
def firstLayerErr : List TextureLayer → Option String
  | [] => none
  | tl :: rest =>
    match validateLayer tl with
    | some e => some e
    | none => firstLayerErr rest

/-- Modelled from the spec: `brush_internal::ValidateBrushPaint` — iterates
every texture layer, checks finiteness of every numeric field, and on the
first violation returns an invalid-argument status whose message names the
offending field followed by `must be finite`. -/
def ValidateBrushPaint (p : BrushPaint) : Status :=
  match firstLayerErr p.texture_layers with
  | none => okStatus
  | some f => invalidArgumentStatus ("`" ++ f ++ "` must be finite")

/-- `pat` is a leading prefix of `l`. -/
def leadMatch : List Char → List Char → Bool
  | [], _ => true
  | _ :: _, [] => false
  | a :: as, b :: bs => a == b && leadMatch as bs

/-- `pat` occurs contiguously somewhere in `l`. -/
def hasSub (pat : List Char) : List Char → Bool
  | [] => leadMatch pat []
  | c :: rest => leadMatch pat (c :: rest) || hasSub pat rest

/-- `HasSubstr`-style containment on strings. -/
def strHasSub (s pat : String) : Bool := hasSub pat.toList s.toList

/-- Modelled from the spec: the Java exception the JNI layer raises for a
non-OK status — class path and message determined from the status. -/
structure JavaException where
  classPath : String
  message : String
  deriving DecidableEq, Repr

/-- Modelled from the spec: the exception class is chosen from the status
code (invalid-argument maps to `IllegalArgumentException`) and the message
is the status message, preserving the field-naming text. -/
def exceptionFromStatus (s : Status) : JavaException :=
  ⟨if s.code = 3 then "java.lang.IllegalArgumentException"
    else "java.lang.RuntimeException", s.message⟩

/-- Modelled from the spec: `ink::jni::CheckOkOrThrow` from its declaration
in `jni_throw_util.h` (the defining `.cc` is not in the sources) — returns
true and throws nothing when the status is OK; otherwise throws a Java
exception determined from the status and returns false. The pending thrown
exception is modelled as the second component. -/
def CheckOkOrThrow (s : Status) : Bool × Option JavaException :=
  if s.code = 0 then (true, none)
  else (false, some (exceptionFromStatus s))

/-- Shorthand for an exact finite scalar given as a fraction. -/
def fq (n : Int) (d : Nat) : FP := FP.finite (mkRat n d)

theorem fpBeq_iff {a b : FP} : FP.beq a b = true ↔ a = b := by
  cases a <;> cases b <;> simp [FP.beq]

theorem vecBeq_iff {a b : Vec} : Vec.beq a b = true ↔ a = b := by
  cases a; cases b
  simp [Vec.beq, fpBeq_iff, Vec.mk.injEq]

theorem angleBeq_iff {a b : Angle} : Angle.beq a b = true ↔ a = b := by
  cases a; cases b
  simp [Angle.beq, fpBeq_iff, Angle.mk.injEq]

theorem optBeq_iff {α : Type} {f : α → α → Bool}
    (hf : ∀ a b : α, f a b = true ↔ a = b) :
    ∀ {o p : Option α}, optBeq f o p = true ↔ o = p := by
  intro o p
  cases o <;> cases p <;> simp [optBeq, hf]

theorem listBeq_iff {α : Type} {f : α → α → Bool}
    (hf : ∀ a b : α, f a b = true ↔ a = b) :
    ∀ {l m : List α}, listBeq f l m = true ↔ l = m
  | [], [] => by simp [listBeq]
  | [], _ :: _ => by simp [listBeq]
  | _ :: _, [] => by simp [listBeq]
  | a :: as, b :: bs => by
    simp [listBeq, hf, listBeq_iff hf]

theorem kfBeq_iff {a b : TextureKeyframe} :
    TextureKeyframe.beq a b = true ↔ a = b := by
  cases a; cases b
  simp [TextureKeyframe.beq, fpBeq_iff, TextureKeyframe.mk.injEq,
    optBeq_iff (fun _ _ => vecBeq_iff), optBeq_iff (fun _ _ => angleBeq_iff),
    optBeq_iff (fun _ _ => fpBeq_iff), and_assoc]

theorem layerBeq_iff {a b : TextureLayer} :
    TextureLayer.beq a b = true ↔ a = b := by
  cases a; cases b
  simp [TextureLayer.beq, fpBeq_iff, vecBeq_iff, angleBeq_iff,
    TextureLayer.mk.injEq, listBeq_iff (fun _ _ => kfBeq_iff),
    and_assoc]

theorem paintBeq_iff {a b : BrushPaint} :
    BrushPaint.beq a b = true ↔ a = b := by
  cases a; cases b
  simp [BrushPaint.beq, BrushPaint.mk.injEq,
    listBeq_iff (fun _ _ => layerBeq_iff)]

theorem validateKeyframe_eq_head (kf : TextureKeyframe) :
    validateKeyframe kf = kf.badFields.head? := by
  unfold validateKeyframe TextureKeyframe.badFields
  cases hp : kf.progress.isFinite <;>
  cases hs : kf.size.all Vec.isFinite <;>
  cases ho : kf.offset.all Vec.isFinite <;>
  cases hr : kf.rotation.all Angle.isFinite <;>
  cases hop : kf.opacity.all FP.isFinite <;>
  simp

theorem firstKeyframeErr_eq_head :
    ∀ l : List TextureKeyframe,
      firstKeyframeErr l = ((l.map TextureKeyframe.badFields).flatten).head?
  | [] => rfl
  | kf :: rest => by
    have h1 := validateKeyframe_eq_head kf
    cases hb : kf.badFields with
    | nil =>
      simp only [firstKeyframeErr, h1, hb, List.head?, List.map_cons,
        List.flatten_cons, List.nil_append]
      exact firstKeyframeErr_eq_head rest
    | cons f fs =>
      simp [firstKeyframeErr, h1, hb]

theorem validateLayer_eq_head (tl : TextureLayer) :
    validateLayer tl = tl.badFields.head? := by
  unfold validateLayer TextureLayer.badFields
  cases h1 : tl.rotation.isFinite <;>
  cases h2 : tl.rotation_jitter.isFinite <;>
  cases h3 : tl.size.isFinite <;>
  cases h4 : tl.offset.isFinite <;>
  cases h5 : tl.size_jitter.isFinite <;>
  cases h6 : tl.offset_jitter.isFinite <;>
  cases h7 : tl.opacity.isFinite <;>
  simp [firstKeyframeErr_eq_head]

theorem firstLayerErr_eq_head :
    ∀ l : List TextureLayer,
      firstLayerErr l = ((l.map TextureLayer.badFields).flatten).head?
  | [] => rfl
  | tl :: rest => by
    have h1 := validateLayer_eq_head tl
    cases hb : tl.badFields with
    | nil =>
      simp only [firstLayerErr, h1, hb, List.head?, List.map_cons,
        List.flatten_cons, List.nil_append]
      exact firstLayerErr_eq_head rest
    | cons f fs =>
      simp [firstLayerErr, h1, hb]

theorem validateBrushPaint_eq_head (p : BrushPaint) :
    ValidateBrushPaint p =
      match p.badFields.head? with
      | none => okStatus
      | some f => invalidArgumentStatus ("`" ++ f ++ "` must be finite") := by
  unfold ValidateBrushPaint BrushPaint.badFields
  rw [firstLayerErr_eq_head]

theorem kfBadFields_nil_iff (kf : TextureKeyframe) :
    kf.badFields = [] ↔ kf.allFinite = true := by
  unfold TextureKeyframe.badFields TextureKeyframe.allFinite
  cases hp : kf.progress.isFinite <;>
  cases hs : kf.size.all Vec.isFinite <;>
  cases ho : kf.offset.all Vec.isFinite <;>
  cases hr : kf.rotation.all Angle.isFinite <;>
  cases hop : kf.opacity.all FP.isFinite <;>
  simp

theorem layerBadFields_nil_iff (tl : TextureLayer) :
    tl.badFields = [] ↔ tl.allFinite = true := by
  unfold TextureLayer.badFields TextureLayer.allFinite
  cases h1 : tl.rotation.isFinite <;>
  cases h2 : tl.rotation_jitter.isFinite <;>
  cases h3 : tl.size.isFinite <;>
  cases h4 : tl.offset.isFinite <;>
  cases h5 : tl.size_jitter.isFinite <;>
  cases h6 : tl.offset_jitter.isFinite <;>
  cases h7 : tl.opacity.isFinite <;>
  simp [List.flatten_eq_nil_iff, List.all_eq_true,
    kfBadFields_nil_iff]

theorem paintBadFields_nil_iff (p : BrushPaint) :
    p.badFields = [] ↔ p.allFinite = true := by
  unfold BrushPaint.badFields BrushPaint.allFinite
  simp [List.flatten_eq_nil_iff, List.all_eq_true,
    layerBadFields_nil_iff]

/-- C1: `ValidateBrushPaint` checks finiteness of every floating-point-bearing
field of every layer (size, offset, size_jitter, offset_jitter, opacity,
rotation, rotation_jitter) and of every keyframe (progress, size, offset,
rotation, opacity) independently: whenever exactly one such field is
non-finite (`badFields p` is the singleton `[f]`), validation fails with the
error naming exactly that field; and each of the twelve field kinds produces
its own named error on a concrete single-fault paint (NaN and both signs of
infinity all rejected). -/
theorem validateBrushPaint_names_single_nonfinite_field :
    (∀ (p : BrushPaint) (f : String), p.badFields = [f] →
        ValidateBrushPaint p = invalidArgumentStatus ("`" ++ f ++ "` must be finite"))
      ∧ ValidateBrushPaint ⟨[{ size := ⟨FP.nan, FP.finite 1⟩ }]⟩
          = invalidArgumentStatus "`size` must be finite"
      ∧ ValidateBrushPaint ⟨[{ offset := ⟨FP.posInf, FP.finite 0⟩ }]⟩
          = invalidArgumentStatus "`offset` must be finite"
      ∧ ValidateBrushPaint ⟨[{ size_jitter := ⟨FP.negInf, FP.finite 0⟩ }]⟩
          = invalidArgumentStatus "`size_jitter` must be finite"
      ∧ ValidateBrushPaint ⟨[{ offset_jitter := ⟨FP.finite 0, FP.nan⟩ }]⟩
          = invalidArgumentStatus "`offset_jitter` must be finite"
      ∧ ValidateBrushPaint ⟨[{ opacity := FP.negInf }]⟩
          = invalidArgumentStatus "`opacity` must be finite"
      ∧ ValidateBrushPaint ⟨[{ rotation := Angle.ofFP FP.nan }]⟩
          = invalidArgumentStatus "`rotation` must be finite"
      ∧ ValidateBrushPaint ⟨[{ rotation_jitter := Angle.ofFP FP.posInf }]⟩
          = invalidArgumentStatus "`rotation_jitter` must be finite"
      ∧ ValidateBrushPaint ⟨[{ keyframes := [{ progress := FP.nan }] }]⟩
          = invalidArgumentStatus "`progress` must be finite"
      ∧ ValidateBrushPaint ⟨[{ keyframes := [{ size := some ⟨FP.posInf, FP.finite 0⟩ }] }]⟩
          = invalidArgumentStatus "`size` must be finite"
      ∧ ValidateBrushPaint ⟨[{ keyframes := [{ offset := some ⟨FP.finite 0, FP.negInf⟩ }] }]⟩
          = invalidArgumentStatus "`offset` must be finite"
      ∧ ValidateBrushPaint ⟨[{ keyframes := [{ rotation := some (Angle.ofFP FP.nan) }] }]⟩
          = invalidArgumentStatus "`rotation` must be finite"
      ∧ ValidateBrushPaint ⟨[{ keyframes := [{ opacity := some FP.posInf }] }]⟩
          = invalidArgumentStatus "`opacity` must be finite" := by
  refine ⟨?_, rfl, rfl, rfl, rfl, rfl, rfl, rfl, rfl, rfl, rfl, rfl, rfl⟩
  intro p f h
  rw [validateBrushPaint_eq_head, h]
  rfl

/-- Sample paint whose only non-finite numeric field is the `offset` of its
single keyframe. -/
def c1SamplePaint : BrushPaint :=
  ⟨[{ keyframes := [{ offset := some ⟨FP.finite 0, FP.nan⟩ }] }]⟩

/-- Witness for C1 at a concrete single-fault paint. -/
theorem validateBrushPaint_names_single_nonfinite_field_check :
    BrushPaint.badFields c1SamplePaint = ["offset"]
      ∧ ValidateBrushPaint c1SamplePaint
          = invalidArgumentStatus ("`" ++ "offset" ++ "` must be finite") :=
  ⟨rfl, validateBrushPaint_names_single_nonfinite_field.1 c1SamplePaint "offset" rfl⟩

/-- Paint with one layer whose rotation is the given scalar, everything else
default. -/
def rotationPaint (v : FP) : BrushPaint := ⟨[{ rotation := Angle.ofFP v }]⟩

/-- Paint with one layer whose rotation_jitter is the given scalar. -/
def rotationJitterPaint (v : FP) : BrushPaint :=
  ⟨[{ rotation_jitter := Angle.ofFP v }]⟩

/-- C2: a paint whose first layer has a non-finite `rotation` fails
validation with the invalid-argument kind (canonical code 3) and a message
containing `rotation\x60 must be finite`; likewise `rotation_jitter` when the
rotation itself is finite; and the +infinity and NaN inputs produce
identical results. -/
theorem validateBrushPaint_rotation_error :
    (∀ (tl : TextureLayer) (rest : List TextureLayer),
        tl.rotation.isFinite = false →
          (ValidateBrushPaint ⟨tl :: rest⟩).code = 3
            ∧ strHasSub (ValidateBrushPaint ⟨tl :: rest⟩).message
                "rotation` must be finite" = true)
      ∧ (∀ (tl : TextureLayer) (rest : List TextureLayer),
          tl.rotation.isFinite = true →
          tl.rotation_jitter.isFinite = false →
            (ValidateBrushPaint ⟨tl :: rest⟩).code = 3
              ∧ strHasSub (ValidateBrushPaint ⟨tl :: rest⟩).message
                  "rotation_jitter` must be finite" = true)
      ∧ ValidateBrushPaint (rotationPaint FP.posInf)
          = ValidateBrushPaint (rotationPaint FP.nan)
      ∧ ValidateBrushPaint (rotationJitterPaint FP.posInf)
          = ValidateBrushPaint (rotationJitterPaint FP.nan) := by
  refine ⟨?_, ?_, by decide, by decide⟩
  · intro tl rest h
    have hv : ValidateBrushPaint ⟨tl :: rest⟩
        = invalidArgumentStatus ("`" ++ "rotation" ++ "` must be finite") := by
      simp [ValidateBrushPaint, firstLayerErr, validateLayer, h]
    rw [hv]
    exact ⟨rfl, by decide⟩
  · intro tl rest h1 h2
    have hv : ValidateBrushPaint ⟨tl :: rest⟩
        = invalidArgumentStatus ("`" ++ "rotation_jitter" ++ "` must be finite") := by
      simp [ValidateBrushPaint, firstLayerErr, validateLayer, h1, h2]
    rw [hv]
    exact ⟨rfl, by decide⟩

/-- Witness for C2 at a concrete NaN rotation and infinite rotation_jitter. -/
theorem validateBrushPaint_rotation_error_check :
    (TextureLayer.rotation { rotation := Angle.ofFP FP.nan }).isFinite = false
      ∧ ((ValidateBrushPaint ⟨[({ rotation := Angle.ofFP FP.nan } : TextureLayer)]⟩).code = 3
          ∧ strHasSub (ValidateBrushPaint
              ⟨[({ rotation := Angle.ofFP FP.nan } : TextureLayer)]⟩).message
              "rotation` must be finite" = true)
      ∧ ((ValidateBrushPaint ⟨[({ rotation_jitter := Angle.ofFP FP.posInf } : TextureLayer)]⟩).code = 3
          ∧ strHasSub (ValidateBrushPaint
              ⟨[({ rotation_jitter := Angle.ofFP FP.posInf } : TextureLayer)]⟩).message
              "rotation_jitter` must be finite" = true) :=
  ⟨rfl,
   validateBrushPaint_rotation_error.1 { rotation := Angle.ofFP FP.nan } [] rfl,
   validateBrushPaint_rotation_error.2.1
     { rotation_jitter := Angle.ofFP FP.posInf } [] rfl rfl⟩

/-- C3: validation succeeds on the empty-layer paint and on every paint in
which every numeric field reachable from every layer and keyframe is
finite. -/
theorem validateBrushPaint_ok_cases :
    ValidateBrushPaint ⟨[]⟩ = okStatus
      ∧ ∀ p : BrushPaint, p.allFinite = true → ValidateBrushPaint p = okStatus := by
  constructor
  · rfl
  · intro p h
    rw [validateBrushPaint_eq_head, (paintBadFields_nil_iff p).mpr h]
    rfl

/-- Witness for C3 at a concrete all-finite textured paint. -/
theorem validateBrushPaint_ok_cases_check :
    BrushPaint.allFinite ⟨[{ keyframes := [{}] }]⟩ = true
      ∧ ValidateBrushPaint ⟨[{ keyframes := [{}] }]⟩ = okStatus :=
  ⟨rfl, validateBrushPaint_ok_cases.2 ⟨[{ keyframes := [{}] }]⟩ rfl⟩

/-- C4: equal values hash equally, for TextureKeyframe, TextureLayer and
BrushPaint alike — hash/equality consistency over every field, optional
states, enums and sequence shape. -/
theorem hash_respects_eq :
    (∀ a b : TextureKeyframe, TextureKeyframe.beq a b = true →
        TextureKeyframe.hashv a = TextureKeyframe.hashv b)
      ∧ (∀ a b : TextureLayer, TextureLayer.beq a b = true →
          TextureLayer.hashv a = TextureLayer.hashv b)
      ∧ (∀ a b : BrushPaint, BrushPaint.beq a b = true →
          BrushPaint.hashv a = BrushPaint.hashv b) :=
  ⟨fun _ _ h => by rw [kfBeq_iff.mp h],
   fun _ _ h => by rw [layerBeq_iff.mp h],
   fun _ _ h => by rw [paintBeq_iff.mp h]⟩

/-- Witness for C4 on concrete equal values (the keyframe pair written with
different but equal-valued fractions). -/
theorem hash_respects_eq_check :
    TextureKeyframe.beq { progress := fq 1 2 } { progress := fq 2 4 } = true
      ∧ TextureKeyframe.hashv { progress := fq 1 2 }
          = TextureKeyframe.hashv { progress := fq 2 4 }
      ∧ TextureLayer.hashv {} = TextureLayer.hashv {}
      ∧ BrushPaint.hashv ⟨[{}]⟩ = BrushPaint.hashv ⟨[{}]⟩ :=
  ⟨by decide,
   hash_respects_eq.1 _ _ (by decide),
   hash_respects_eq.2.1 {} {} (by decide),
   hash_respects_eq.2.2 ⟨[{}]⟩ ⟨[{}]⟩ (by decide)⟩

/-- C5: equality is exact field-wise structural equality for
TextureKeyframe, TextureLayer and BrushPaint — any difference in any field
(including optional present/absent state, enums, and sequence length or
order) makes the values unequal, and an unchanged copy compares equal. -/
theorem eq_iff_fieldwise :
    (∀ a b : TextureKeyframe, TextureKeyframe.beq a b = true ↔ a = b)
      ∧ (∀ a b : TextureLayer, TextureLayer.beq a b = true ↔ a = b)
      ∧ (∀ a b : BrushPaint, BrushPaint.beq a b = true ↔ a = b) :=
  ⟨fun _ _ => kfBeq_iff, fun _ _ => layerBeq_iff,
   fun _ _ => paintBeq_iff⟩

/-- Witness for C5: a one-field difference compares unequal, a copy compares
equal, and dropping a layer compares unequal. -/
theorem eq_iff_fieldwise_check :
    TextureKeyframe.beq { opacity := some (fq 1 2) } { opacity := none } = false
      ∧ TextureLayer.beq {} {} = true
      ∧ BrushPaint.beq ⟨[{}]⟩ ⟨[]⟩ = false := by
  refine ⟨?_, (eq_iff_fieldwise.2.1 {} {}).mpr rfl, ?_⟩
  · exact Bool.eq_false_iff.mpr
      (fun hc => absurd ((eq_iff_fieldwise.1 _ _).mp hc) (by decide))
  · exact Bool.eq_false_iff.mpr
      (fun hc => absurd ((eq_iff_fieldwise.2.2 _ _).mp hc) (by decide))

/-- C6: every known enumerator of the four enum types stringifies to its
fixed token, and every ordinal outside the known set stringifies (totally,
never failing) to the `TypeName(ordinal)` fallback, e.g. BlendMode ordinal
99 yields `BlendMode(99)`. -/
theorem enum_stringify_tokens_and_fallback :
    (stringifyTextureMapping TextureMapping.kWinding = "kWinding"
      ∧ stringifyTextureMapping TextureMapping.kTiling = "kTiling"
      ∧ ∀ n : TextureMapping, n ≠ TextureMapping.kWinding →
          n ≠ TextureMapping.kTiling →
          stringifyTextureMapping n = "TextureMapping(" ++ Nat.repr n ++ ")")
      ∧ (stringifyTextureOrigin TextureOrigin.kStrokeSpaceOrigin = "kStrokeSpaceOrigin"
        ∧ stringifyTextureOrigin TextureOrigin.kFirstStrokeInput = "kFirstStrokeInput"
        ∧ stringifyTextureOrigin TextureOrigin.kLastStrokeInput = "kLastStrokeInput"
        ∧ ∀ n : TextureOrigin, n ≠ TextureOrigin.kStrokeSpaceOrigin →
            n ≠ TextureOrigin.kFirstStrokeInput →
            n ≠ TextureOrigin.kLastStrokeInput →
            stringifyTextureOrigin n = "TextureOrigin(" ++ Nat.repr n ++ ")")
      ∧ (stringifyTextureSizeUnit TextureSizeUnit.kBrushSize = "kBrushSize"
        ∧ stringifyTextureSizeUnit TextureSizeUnit.kStrokeSize = "kStrokeSize"
        ∧ stringifyTextureSizeUnit TextureSizeUnit.kStrokeCoordinates = "kStrokeCoordinates"
        ∧ ∀ n : TextureSizeUnit, n ≠ TextureSizeUnit.kBrushSize →
            n ≠ TextureSizeUnit.kStrokeSize →
            n ≠ TextureSizeUnit.kStrokeCoordinates →
            stringifyTextureSizeUnit n = "TextureSizeUnit(" ++ Nat.repr n ++ ")")
      ∧ (stringifyBlendMode BlendMode.kModulate = "kModulate"
        ∧ stringifyBlendMode BlendMode.kDstIn = "kDstIn"
        ∧ stringifyBlendMode BlendMode.kDstOut = "kDstOut"
        ∧ stringifyBlendMode BlendMode.kSrcAtop = "kSrcAtop"
        ∧ stringifyBlendMode BlendMode.kSrcIn = "kSrcIn"
        ∧ stringifyBlendMode BlendMode.kSrcOver = "kSrcOver"
        ∧ stringifyBlendMode BlendMode.kSrc = "kSrc"
        ∧ stringifyBlendMode BlendMode.kXor = "kXor"
        ∧ ∀ n : BlendMode, n ≠ BlendMode.kModulate → n ≠ BlendMode.kDstIn →
            n ≠ BlendMode.kDstOut → n ≠ BlendMode.kSrcAtop →
            n ≠ BlendMode.kSrcIn → n ≠ BlendMode.kSrcOver →
            n ≠ BlendMode.kSrc → n ≠ BlendMode.kXor →
            stringifyBlendMode n = "BlendMode(" ++ Nat.repr n ++ ")")
      ∧ stringifyBlendMode 99 = "BlendMode(99)" := by
  refine ⟨⟨rfl, rfl, ?_⟩, ⟨rfl, rfl, rfl, ?_⟩, ⟨rfl, rfl, rfl, ?_⟩,
    ⟨rfl, rfl, rfl, rfl, rfl, rfl, rfl, rfl, ?_⟩, rfl⟩
  · intro n h0 h1
    match n with
    | 0 => exact absurd rfl h0
    | 1 => exact absurd rfl h1
    | _ + 2 => rfl
  · intro n h0 h1 h2
    match n with
    | 0 => exact absurd rfl h0
    | 1 => exact absurd rfl h1
    | 2 => exact absurd rfl h2
    | _ + 3 => rfl
  · intro n h0 h1 h2
    match n with
    | 0 => exact absurd rfl h0
    | 1 => exact absurd rfl h1
    | 2 => exact absurd rfl h2
    | _ + 3 => rfl
  · intro n h0 h1 h2 h3 h4 h5 h6 h7
    match n with
    | 0 => exact absurd rfl h0
    | 1 => exact absurd rfl h1
    | 2 => exact absurd rfl h2
    | 3 => exact absurd rfl h3
    | 4 => exact absurd rfl h4
    | 5 => exact absurd rfl h5
    | 6 => exact absurd rfl h6
    | 7 => exact absurd rfl h7
    | _ + 8 => rfl

/-- Witness for C6: the fallback parts applied at ordinal 99 for every enum
type. -/
theorem enum_stringify_tokens_and_fallback_check :
    stringifyTextureMapping 99 = "TextureMapping(" ++ Nat.repr 99 ++ ")"
      ∧ stringifyTextureOrigin 99 = "TextureOrigin(" ++ Nat.repr 99 ++ ")"
      ∧ stringifyTextureSizeUnit 99 = "TextureSizeUnit(" ++ Nat.repr 99 ++ ")"
      ∧ stringifyBlendMode 99 = "BlendMode(" ++ Nat.repr 99 ++ ")" :=
  ⟨enum_stringify_tokens_and_fallback.1.2.2 99 (by decide) (by decide),
   enum_stringify_tokens_and_fallback.2.1.2.2.2 99 (by decide) (by decide) (by decide),
   enum_stringify_tokens_and_fallback.2.2.1.2.2.2 99 (by decide) (by decide) (by decide),
   enum_stringify_tokens_and_fallback.2.2.2.1.2.2.2.2.2.2.2.2 99 (by decide)
     (by decide) (by decide) (by decide) (by decide) (by decide) (by decide)
     (by decide)⟩

/-- Sample keyframe: progress and size present. -/
def kfProgSize : TextureKeyframe :=
  { progress := fq 3 10, size := some ⟨fq 4 1, fq 6 1⟩ }

/-- Sample keyframe: progress, size and offset present. -/
def kfProgSizeOff : TextureKeyframe :=
  { kfProgSize with offset := some ⟨fq 2 1, fq 1 5⟩ }

/-- Sample keyframe: progress, size, offset and rotation present. -/
def kfProgSizeOffRot : TextureKeyframe :=
  { kfProgSizeOff with rotation := some ⟨fq 1 2⟩ }

/-- Sample keyframe: all five fields present. -/
def kfAllFields : TextureKeyframe :=
  { kfProgSizeOffRot with opacity := some (fq 3 5) }

/-- Sample keyframe: progress, offset and opacity present (size and rotation
absent). -/
def kfProgOffOpacity : TextureKeyframe :=
  { progress := fq 3 10, offset := some ⟨fq 2 1, fq 1 5⟩, opacity := some (fq 3 5) }

/-- C7: keyframe stringification emits each optional field only when
present, in the fixed order progress, size, offset, rotation, opacity: a
keyframe with only `progress` set yields exactly
`TextureKeyframe\x7bprogress=<p>\x7d` for every progress value, and the
sample keyframes of the snapshot tests render with exactly the present
fields in order. -/
theorem stringify_keyframe_optional_fields :
    (∀ p : FP, stringifyTextureKeyframe { progress := p }
        = "TextureKeyframe\x7bprogress=" ++ p.toStr ++ "\x7d")
      ∧ stringifyTextureKeyframe {} = "TextureKeyframe\x7bprogress=0\x7d"
      ∧ stringifyTextureKeyframe { progress := fq 3 10 }
          = "TextureKeyframe\x7bprogress=0.3\x7d"
      ∧ stringifyTextureKeyframe kfProgSize
          = "TextureKeyframe\x7bprogress=0.3, size=<4, 6>\x7d"
      ∧ stringifyTextureKeyframe kfProgSizeOff
          = "TextureKeyframe\x7bprogress=0.3, size=<4, 6>, offset=<2, 0.2>\x7d"
      ∧ stringifyTextureKeyframe kfProgSizeOffRot
          = "TextureKeyframe\x7bprogress=0.3, size=<4, 6>, offset=<2, 0.2>, rotation=0.5π\x7d"
      ∧ stringifyTextureKeyframe kfAllFields
          = "TextureKeyframe\x7bprogress=0.3, size=<4, 6>, offset=<2, 0.2>, rotation=0.5π, opacity=0.6\x7d"
      ∧ stringifyTextureKeyframe kfProgOffOpacity
          = "TextureKeyframe\x7bprogress=0.3, offset=<2, 0.2>, opacity=0.6\x7d" := by
  refine ⟨?_, rfl, rfl, rfl, rfl, rfl, rfl, rfl⟩
  intro p
  simp [stringifyTextureKeyframe, String.append_empty]

/-- The keyframe of the fully populated snapshot-test layer. -/
def fullSampleKeyframe : TextureKeyframe :=
  { progress := fq 1 5, size := some ⟨fq 2 1, fq 5 1⟩, rotation := some ⟨fq 1 8⟩ }

/-- The fully non-default layer of the layer-stringification snapshot
test. -/
def fullSampleLayer : TextureLayer :=
  { color_texture_uri := "/texture:test-texture",
    mapping := TextureMapping.kWinding,
    origin := TextureOrigin.kFirstStrokeInput,
    size_unit := TextureSizeUnit.kBrushSize,
    size := ⟨fq 3 1, fq 5 1⟩,
    offset := ⟨fq 2 1, fq 1 5⟩,
    rotation := ⟨fq 1 2⟩,
    size_jitter := ⟨fq 1 10, fq 1 5⟩,
    offset_jitter := ⟨fq 7 10, fq 3 10⟩,
    rotation_jitter := ⟨fq 1 8⟩,
    opacity := fq 3 5,
    keyframes := [fullSampleKeyframe],
    blend_mode := BlendMode.kDstIn }

/-- C8: a default-constructed TextureLayer stringifies to the exact
field-order-fixed string with the default values (empty string after
`color_texture_uri=`, `mapping=kTiling`, ..., `blend_mode=kModulate`), and —
unlike the optional keyframe fields — every layer field is emitted also with
non-default values, as on the snapshot test's fully populated layer. -/
theorem stringify_default_texture_layer :
    stringifyTextureLayer {}
        = "TextureLayer\x7bcolor_texture_uri=, mapping=kTiling, origin=kStrokeSpaceOrigin, size_unit=kStrokeCoordinates, size=<1, 1>, offset=<0, 0>, rotation=0π, size_jitter=<0, 0>, offset_jitter=<0, 0>, rotation_jitter=0π, opacity=1, keyframes=\x7b\x7d, blend_mode=kModulate\x7d"
      ∧ stringifyTextureLayer fullSampleLayer
        = "TextureLayer\x7bcolor_texture_uri=/texture:test-texture, mapping=kWinding, origin=kFirstStrokeInput, size_unit=kBrushSize, size=<3, 5>, offset=<2, 0.2>, rotation=0.5π, size_jitter=<0.1, 0.2>, offset_jitter=<0.7, 0.3>, rotation_jitter=0.125π, opacity=0.6, keyframes=\x7bTextureKeyframe\x7bprogress=0.2, size=<2, 5>, rotation=0.125π\x7d\x7d, blend_mode=kDstIn\x7d" :=
  ⟨rfl, rfl⟩

/-- C9: two Angle values are equal exactly when their raw stored scalars are
equal — no epsilon, no wrap-around normalization — and hashing is consistent
with that equality. -/
theorem angle_eq_exact_raw :
    (∀ a b : Angle, Angle.beq a b = true ↔ a.radOverPi = b.radOverPi)
      ∧ ∀ a b : Angle, Angle.beq a b = true → Angle.hashv a = Angle.hashv b := by
  constructor
  · intro a b
    rw [angleBeq_iff]
    cases a; cases b
    simp [Angle.mk.injEq]
  · intro a b h
    rw [angleBeq_iff.mp h]

/-- Witness for C9 on a concrete pair with equal raw values written as
different fractions. -/
theorem angle_eq_exact_raw_check :
    Angle.beq ⟨fq 1 2⟩ ⟨fq 2 4⟩ = true
      ∧ Angle.hashv ⟨fq 1 2⟩ = Angle.hashv ⟨fq 2 4⟩ :=
  ⟨(angle_eq_exact_raw.1 ⟨fq 1 2⟩ ⟨fq 2 4⟩).mpr (by decide),
   angle_eq_exact_raw.2 ⟨fq 1 2⟩ ⟨fq 2 4⟩ (by decide)⟩

/-- C10: `CheckOkOrThrow` returns true exactly when the status is OK; it
throws nothing for an OK status and, for a non-OK status, throws the Java
exception whose class and message are determined from the status. -/
theorem checkOkOrThrow_contract :
    ∀ s : Status,
      ((CheckOkOrThrow s).1 = true ↔ s.code = 0)
        ∧ ((CheckOkOrThrow s).2 = none ↔ s.code = 0)
        ∧ (s.code ≠ 0 → (CheckOkOrThrow s).2 = some (exceptionFromStatus s)) := by
  intro s
  by_cases h : s.code = 0 <;> simp [CheckOkOrThrow, h]

/-- Witness for C10 at a concrete invalid-argument status. -/
theorem checkOkOrThrow_contract_check :
    Status.code ⟨3, "bad"⟩ ≠ 0
      ∧ (CheckOkOrThrow ⟨3, "bad"⟩).2 = some (exceptionFromStatus ⟨3, "bad"⟩) :=
  ⟨by decide, (checkOkOrThrow_contract ⟨3, "bad"⟩).2.2 (by decide)⟩

end Ink
